import Mathlib

/-!
Verification of the core dynamics and evaluation logic of the `stable-gym`
reinforcement-learning environments (Oscillator, Ex3EKF, Walker2dCost).

The Python code works on floating-point numbers; this development embeds the
same arithmetic over the exact rationals `ℚ`.  Transcendental functions
(`np.sin`, `np.cos`) and the constant `2·π·f` are not rational, so they are
passed in as abstract parameters (`sinF`, `cosF`, `two_pi_freq`): no claim
proved here depends on their values.  Random draws made through the seeded
numpy generator are modelled by explicit sample parameters: a call
`uniform(lo, hi)` with a sample point `r ∈ [0,1]` returns `lo + r*(hi-lo)`,
and `binomial(1, p)` with a sample point `r ∈ [0,1)` returns `1` iff `r < p`.
-/

set_option maxHeartbeats 1000000

namespace StableGym

/-- A value of a numpy `uniform(lo, hi)` draw, expressed through its sample
point `r` (the draw equals `lo` at `r = 0` and `hi` at `r = 1`). -/
def uniformDraw (lo hi r : ℚ) : ℚ :=
  lo + r * (hi - lo)

/-- A value of a numpy `binomial(1, p)` (Bernoulli) draw, expressed through
its sample point `r ∈ [0, 1)`: the draw is `1` exactly when `r < p`. -/
def bernoulliDraw (p r : ℚ) : ℕ :=
  if r < p then 1 else 0

/-- A value stored in a step/reset `info` dictionary: the environments store
both scalars and small vectors there. -/
inductive InfoVal where
  | scalar (q : ℚ)
  | vec (v : List ℚ)
deriving DecidableEq

/-- An `info` dictionary: an association list from keys to values; an entry
earlier in the list shadows a later one with the same key (mirroring
`dict.update`, which gives priority to the newest binding). -/
abbrev InfoDict := List (String × InfoVal)

/-- Whether an `info` dictionary carries the given key. -/
def InfoDict.hasKey (d : InfoDict) (k : String) : Bool :=
  (List.any d fun kv => kv.1 == k)

/-! ## The Oscillator environment (`oscillator.py`) -/

/-- Parameters of the `Oscillator` environment, as set in
`Oscillator.__init__`.  `two_pi_freq` stands for the product
`2 * np.pi * reference_frequency` appearing in `Oscillator.reference`. -/
structure OscParams where
  K1 : ℚ
  K2 : ℚ
  K3 : ℚ
  a1 : ℚ
  a2 : ℚ
  a3 : ℚ
  gamma1 : ℚ
  gamma2 : ℚ
  gamma3 : ℚ
  beta1 : ℚ
  beta2 : ℚ
  beta3 : ℚ
  c1 : ℚ
  c2 : ℚ
  c3 : ℚ
  b1 : ℚ
  b2 : ℚ
  b3 : ℚ
  delta1 : ℚ
  delta2 : ℚ
  delta3 : ℚ
  delta4 : ℚ
  delta5 : ℚ
  delta6 : ℚ
  dt : ℚ
  reward_low : ℚ
  reward_high : ℚ
  reference_target_pos : ℚ
  reference_amplitude : ℚ
  two_pi_freq : ℚ
  phase_shift : ℚ
  exclude_reference_from_observation : Bool
  exclude_reference_error_from_observation : Bool
deriving DecidableEq

/-- The default parameter values of `Oscillator.__init__`
(`reward_range = (0.0, 100.0)`, rate constants from the constructor body,
all noise magnitudes zero). -/
def defaultOscParams : OscParams :=
  { K1 := 1, K2 := 1, K3 := 1
    a1 := 8/5, a2 := 8/5, a3 := 8/5
    gamma1 := 4/25, gamma2 := 4/25, gamma3 := 4/25
    beta1 := 4/25, beta2 := 4/25, beta3 := 4/25
    c1 := 3/50, c2 := 3/50, c3 := 3/50
    b1 := 1, b2 := 1, b3 := 1
    delta1 := 0, delta2 := 0, delta3 := 0
    delta4 := 0, delta5 := 0, delta6 := 0
    dt := 1
    reward_low := 0, reward_high := 100
    reference_target_pos := 8
    reference_amplitude := 7
    -- The source default is `2 * np.pi * (1/200)`, which is irrational and
    -- hence outside ℚ; no claim constrains its value, so `0` stands in.
    two_pi_freq := 0
    phase_shift := 0
    exclude_reference_from_observation := false
    exclude_reference_error_from_observation := true }

/-- The six-component physical state of the oscillator:
three mRNA and three protein concentrations. -/
structure OscState where
  m1 : ℚ
  m2 : ℚ
  m3 : ℚ
  p1 : ℚ
  p2 : ℚ
  p3 : ℚ
deriving DecidableEq

/-- The mutable environment data of an `Oscillator` instance:
the stored state vector and the elapsed time accumulator. -/
structure OscEnv where
  state : OscState
  t : ℚ
deriving DecidableEq

namespace Oscillator

/-- `Oscillator.reference(t)`: the periodic reference signal
`target + amplitude * sin(2*pi*frequency*t - phase_shift)`. -/
def reference (sinF : ℚ → ℚ) (P : OscParams) (t : ℚ) : ℚ :=
  P.reference_target_pos +
    P.reference_amplitude * sinF (P.two_pi_freq * t - P.phase_shift)

/-- The state-update core of `Oscillator.step`: derivatives of the three
coupled repressor ODE pairs computed from the current state, one explicit
Euler step, an additive `uniform(-delta_i, delta_i)` noise draw per
component (sample points `r 0 .. r 5`), and an element-wise maximum with
zero. -/
def stepDynamics (P : OscParams) (s : OscState) (u1 u2 u3 : ℚ)
    (r : Fin 6 → ℚ) : OscState :=
  let m1_dot := -P.gamma1 * s.m1 + P.a1 / (P.K1 + s.p3 ^ 2) + P.b1 * u1
  let m2_dot := -P.gamma2 * s.m2 + P.a2 / (P.K2 + s.p1 ^ 2) + P.b2 * u2
  let m3_dot := -P.gamma3 * s.m3 + P.a3 / (P.K3 + s.p2 ^ 2) + P.b3 * u3
  let p1_dot := -P.c1 * s.p1 + P.beta1 * s.m1
  let p2_dot := -P.c2 * s.p2 + P.beta2 * s.m2
  let p3_dot := -P.c3 * s.p3 + P.beta3 * s.m3
  { m1 := max (s.m1 + m1_dot * P.dt + uniformDraw (-P.delta1) P.delta1 (r 0)) 0
    m2 := max (s.m2 + m2_dot * P.dt + uniformDraw (-P.delta2) P.delta2 (r 1)) 0
    m3 := max (s.m3 + m3_dot * P.dt + uniformDraw (-P.delta3) P.delta3 (r 2)) 0
    p1 := max (s.p1 + p1_dot * P.dt + uniformDraw (-P.delta4) P.delta4 (r 3)) 0
    p2 := max (s.p2 + p2_dot * P.dt + uniformDraw (-P.delta5) P.delta5 (r 4)) 0
    p3 := max (s.p3 + p3_dot * P.dt + uniformDraw (-P.delta6) P.delta6 (r 5)) 0 }

/-- What `Oscillator.step` returns, together with the updated environment
data (`self.state`, `self.t`). -/
structure StepResult where
  env : OscEnv
  obs : List ℚ
  cost : ℚ
  terminated : Bool
  truncated : Bool
  info : InfoDict
deriving DecidableEq

/-- `Oscillator.step` after action resolution: advance the state, advance
time, evaluate the reference and the cost `(p1 - r1)^2`, decide termination
from the reward range, and build the observation and info dictionary. -/
def step (sinF : ℚ → ℚ) (P : OscParams) (env : OscEnv) (u1 u2 u3 : ℚ)
    (r : Fin 6 → ℚ) : StepResult :=
  let s := stepDynamics P env.state u1 u2 u3 r
  let t := env.t + P.dt
  let r1 := reference sinF P t
  let cost := (s.p1 - r1) ^ 2
  let terminated := decide (cost < P.reward_low) || decide (P.reward_high < cost)
  let obs0 := [s.m1, s.m2, s.m3, s.p1, s.p2, s.p3]
  let obs1 := if !P.exclude_reference_from_observation then obs0 ++ [r1] else obs0
  let obs2 :=
    if !P.exclude_reference_error_from_observation then obs1 ++ [s.p1 - r1] else obs1
  { env := { state := s, t := t }
    obs := obs2
    cost := cost
    terminated := terminated
    truncated := false
    info := [("reference", .scalar r1),
             ("state_of_interest", .scalar s.p1),
             ("reference_error", .scalar (s.p1 - r1))] }

end Oscillator

/-- `np.clip(x, lo, hi)` for one component. -/
def clip (lo hi x : ℚ) : ℚ :=
  min (max x lo) hi

/-- Membership of a vector in an axis-aligned box (`spaces.Box.contains`):
the shapes must agree and every component must lie within its bounds. -/
def boxContains (lo hi v : List ℚ) : Bool :=
  (v.length == lo.length) && (v.length == hi.length) &&
    ((List.zip v (List.zip lo hi)).all fun x =>
      decide (x.2.1 ≤ x.1) && decide (x.1 ≤ x.2.2))

namespace Oscillator

/-- Lower bound of every component of the oscillator action space. -/
def action_low : ℚ := -5

/-- Upper bound of every component of the oscillator action space. -/
def action_high : ℚ := 5

/-- `self.action_space.contains(action)` for the oscillator:
every component within `[-5, 5]`. -/
def actionContains (a : ℚ × ℚ × ℚ) : Bool :=
  decide (action_low ≤ a.1) && decide (a.1 ≤ action_high) &&
    (decide (action_low ≤ a.2.1) && decide (a.2.1 ≤ action_high)) &&
    (decide (action_low ≤ a.2.2) && decide (a.2.2 ≤ action_high))

/-- The action-resolution prologue of `Oscillator.step`.  Inputs: the
`clip_action` configuration flag, the `_action_clip_warning` flag, and the
action.  Result: `none` when the `assert` fires (clipping disabled and the
action outside the action space); otherwise `some` of the resolved action,
the updated warning flag, and whether a warning was logged on this call. -/
def resolveAction (clip_action warned : Bool) (a : ℚ × ℚ × ℚ) :
    Option ((ℚ × ℚ × ℚ) × Bool × Bool) :=
  if clip_action then
    let warnLogged := !actionContains a && !warned
    some ((clip action_low action_high a.1,
           clip action_low action_high a.2.1,
           clip action_low action_high a.2.2),
          warned || warnLogged, warnLogged)
  else if actionContains a then some (a, warned, false)
  else none

/-- `self._init_state` of the oscillator: used when `random=False`. -/
def init_state : OscState :=
  ⟨4/5, 3/2, 1/2, 33/10, 3, 3⟩

/-- Default lower reset bounds (`self._init_state_range["low"]`). -/
def init_state_range_low : List ℚ :=
  [0, 0, 0, 0, 0, 0]

/-- Default upper reset bounds (`self._init_state_range["high"]`). -/
def init_state_range_high : List ℚ :=
  [5, 5, 5, 5, 5, 5]

/-- Lower bounds of the oscillator observation space, as assembled in
`Oscillator.__init__` from the exclusion flags. -/
def obs_low (P : OscParams) : List ℚ :=
  [0, 0, 0, 0, 0, 0]
    ++ (if !P.exclude_reference_from_observation then [0] else [])
    ++ (if !P.exclude_reference_error_from_observation then [-100] else [])

/-- Upper bounds of the oscillator observation space. -/
def obs_high (P : OscParams) : List ℚ :=
  [100, 100, 100, 100, 100, 100]
    ++ (if !P.exclude_reference_from_observation then [100] else [])
    ++ (if !P.exclude_reference_error_from_observation then [100] else [])

/-- The zero-padding applied to the reset bounds before the observation-space
containment check (`np.append(low, np.zeros(obs_dim - low_dim))`). -/
def padToObs (P : OscParams) (v : List ℚ) : List ℚ :=
  v ++ List.replicate ((obs_low P).length - v.length) 0

/-- `Oscillator.reset`.  The optional `options` bounds replace the default
initial-state range; both are padded with zeros and validated against the
observation space, the `assert` firing (result `none`, environment data
returned untouched) when either lies outside it.  On success the state is
redrawn componentwise uniformly between the bounds (sample points `draws`)
— or set to `_init_state` when `random=False` — time is reset to zero, and
the initial observation and info dictionary are built. -/
def reset (sinF : ℚ → ℚ) (P : OscParams) (env : OscEnv)
    (optLow optHigh : Option (List ℚ)) (draws : Fin 6 → ℚ) (random : Bool) :
    Option (List ℚ × InfoDict) × OscEnv :=
  let low := optLow.getD init_state_range_low
  let high := optHigh.getD init_state_range_high
  if boxContains (obs_low P) (obs_high P) (padToObs P low) &&
      boxContains (obs_low P) (obs_high P) (padToObs P high) then
    let s : OscState :=
      if random then
        { m1 := uniformDraw (low.getD 0 0) (high.getD 0 0) (draws 0)
          m2 := uniformDraw (low.getD 1 0) (high.getD 1 0) (draws 1)
          m3 := uniformDraw (low.getD 2 0) (high.getD 2 0) (draws 2)
          p1 := uniformDraw (low.getD 3 0) (high.getD 3 0) (draws 3)
          p2 := uniformDraw (low.getD 4 0) (high.getD 4 0) (draws 4)
          p3 := uniformDraw (low.getD 5 0) (high.getD 5 0) (draws 5) }
      else init_state
    let env' : OscEnv := { state := s, t := 0 }
    let r1 := reference sinF P 0
    let obs0 := [s.m1, s.m2, s.m3, s.p1, s.p2, s.p3]
    let obs1 := if !P.exclude_reference_from_observation then obs0 ++ [r1] else obs0
    let obs2 :=
      if !P.exclude_reference_error_from_observation then obs1 ++ [s.p1 - r1]
      else obs1
    (some (obs2, [("reference", .scalar r1),
                  ("state_of_interest", .scalar s.p1),
                  ("reference_error", .scalar (s.p1 - r1))]), env')
  else (none, env)

/-- Replay of an action sequence through repeated `Oscillator.step` calls,
consuming one per-step tuple of uniform sample points from `noises`. -/
def trajectory (sinF : ℚ → ℚ) (P : OscParams) (env : OscEnv)
    (actions : List (ℚ × ℚ × ℚ)) (noises : List (Fin 6 → ℚ)) :
    List StepResult :=
  match actions, noises with
  | a :: rest, r :: rs =>
    let res := step sinF P env a.1 a.2.1 a.2.2 r
    res :: trajectory sinF P res.env rest rs
  | _, _ => []

end Oscillator

/-! ## The Ex3EKF environment (`ex3_ekf.py`) -/

/-- Parameters of the `Ex3EKF` environment, as set in `Ex3EKF.__init__`. -/
structure EkfParams where
  dt : ℚ
  g : ℚ
  l_net : ℚ
  missing_rate : ℚ
  reward_low : ℚ
  reward_high : ℚ
deriving DecidableEq

/-- The default parameter values of `Ex3EKF.__init__`
(`dt = 0.1`, `g = 9.81`, `l_net = 1.0`, `missing_rate = 0`,
`reward_range = (0.0, 100.0)`). -/
def defaultEkfParams : EkfParams :=
  { dt := 1/10, g := 981/100, l_net := 1, missing_rate := 0
    reward_low := 0, reward_high := 100 }

/-- The four-component state of the Ex3EKF environment: estimated angle,
estimated frequency, actual angle, actual frequency. -/
structure EkfState where
  hat_x_1 : ℚ
  hat_x_2 : ℚ
  x_1 : ℚ
  x_2 : ℚ
deriving DecidableEq

namespace Ex3EKF

/-- What `Ex3EKF.step` returns, with the updated stored state and the
internally drawn packet flag exposed for the analysis. -/
structure StepResult where
  state : EkfState
  obs : List ℚ
  cost : ℚ
  terminated : Bool
  truncated : Bool
  info : InfoDict
  flag : ℕ
deriving DecidableEq

/-- `Ex3EKF.step` after action resolution.  The master state advances by an
Euler step and receives additive process noise `(w1, w2)`; the measurement
`y_1 = reference(x_1) = sin(x_1) + observation noise (wObs)`; the Bernoulli
packet flag is drawn with success probability `1 - missing_rate` (sample
point `rFlag`); when the packet is received (`flag = 1`) the estimator
update carries the measurement-correction terms `dt*u*(y_1 - hat_y_1)`,
otherwise it is the open-loop two-line update; both branches update
`hat_x_2` with the sine of the freshly updated `hat_x_1`. -/
def step (sinF cosF : ℚ → ℚ) (P : EkfParams) (s : EkfState) (u1 u2 : ℚ)
    (w1 w2 wObs rFlag t : ℚ) : StepResult :=
  let inp := 0 * cosF t * P.dt
  let x1e := s.x_1 + P.dt * s.x_2
  let x2e := s.x_2 - P.g * P.l_net * sinF x1e * P.dt + inp
  let x1 := x1e + w1
  let x2 := x2e + w2
  let y1 := sinF x1 + wObs
  let hat_y_1 := sinF (s.hat_x_1 + P.dt * s.hat_x_2)
  let flag := bernoulliDraw (1 - P.missing_rate) rFlag
  let hx1 :=
    if flag = 1 then s.hat_x_1 + P.dt * s.hat_x_2 + P.dt * u1 * (y1 - hat_y_1)
    else s.hat_x_1 + P.dt * s.hat_x_2
  let hx2 :=
    if flag = 1 then
      s.hat_x_2 - P.g * sinF hx1 * P.dt + P.dt * u2 * (y1 - hat_y_1) + inp
    else s.hat_x_2 - P.g * sinF hx1 * P.dt + inp
  let cost := (hx1 - x1) ^ 2 + (hx2 - x2) ^ 2
  let terminated := decide (cost < P.reward_low) || decide (P.reward_high < cost)
  { state := ⟨hx1, hx2, x1, x2⟩
    obs := [hx1, hx2, x1, x2]
    cost := cost
    terminated := terminated
    truncated := false
    info := [("reference", .scalar y1),
             ("state_of_interest", .vec [hx1 - x1, hx2 - x2])]
    flag := flag }

/-- Lower bound of every component of the Ex3EKF action space. -/
def action_low : ℚ := -10

/-- Upper bound of every component of the Ex3EKF action space. -/
def action_high : ℚ := 10

/-- `self.action_space.contains(action)` for Ex3EKF:
every component within `[-10, 10]`. -/
def actionContains (a : ℚ × ℚ) : Bool :=
  decide (action_low ≤ a.1) && decide (a.1 ≤ action_high) &&
    (decide (action_low ≤ a.2) && decide (a.2 ≤ action_high))

/-- The action-resolution prologue of `Ex3EKF.step`.  With
`clipped_action=True` the warning condition follows the source's operator
precedence — `below.any() or (above.any() and not warned)` — and the action
is clipped; with `clipped_action=False` the action is unpacked directly,
with no containment assertion.  Result: the resolved action, the updated
warning flag, and whether a warning was logged on this call (`none` is
never produced: Ex3EKF has no assertion path). -/
def resolveAction (clipped_action warned : Bool) (a : ℚ × ℚ) :
    Option ((ℚ × ℚ) × Bool × Bool) :=
  if clipped_action then
    let belowAny := decide (a.1 < action_low) || decide (a.2 < action_low)
    let aboveAny := decide (action_high < a.1) || decide (action_high < a.2)
    let warnLogged := belowAny || (aboveAny && !warned)
    some ((clip action_low action_high a.1, clip action_low action_high a.2),
          warned || warnLogged, warnLogged)
  else some (a, warned, false)

/-- The info dictionary built by `Ex3EKF.reset`. -/
def resetInfo (sinF : ℚ → ℚ) (s : EkfState) (wObs : ℚ) : InfoDict :=
  [("reference", .scalar (sinF s.x_1 + wObs)),
   ("state_of_interest", .vec [s.hat_x_1 - s.x_1, s.hat_x_2 - s.x_2])]

end Ex3EKF

/-! ## The Walker2dCost environment (`walker2d_cost.py`) -/

/-- The cost-relevant parameters of the `Walker2dCost` environment. -/
structure WalkerParams where
  reference_forward_velocity : ℚ
  forward_velocity_weight : ℚ
  include_ctrl_cost : Bool
  include_health_penalty : Bool
  health_penalty_size : ℚ
deriving DecidableEq

/-- The default parameter values of `Walker2dCost.__init__`
(velocity weight `1.0`, no control cost, health penalty `10` included). -/
def defaultWalkerParams : WalkerParams :=
  { reference_forward_velocity := 1
    forward_velocity_weight := 1
    include_ctrl_cost := false
    include_health_penalty := true
    health_penalty_size := 10 }

namespace Walker2dCost

/-- `Walker2dCost.cost`: the weighted squared velocity-tracking error, the
optional control-effort term, and the optional health penalty, together with
the cost-breakdown info dictionary it returns. -/
def cost (W : WalkerParams) (x_velocity ctrl_cost : ℚ) (is_healthy : Bool) :
    ℚ × InfoDict :=
  let velocity_cost :=
    W.forward_velocity_weight * (x_velocity - W.reference_forward_velocity) ^ 2
  let cost1 := if W.include_ctrl_cost then velocity_cost + ctrl_cost else velocity_cost
  let health_penalty :=
    if W.include_health_penalty && !is_healthy then W.health_penalty_size else 0
  let cost2 :=
    if W.include_health_penalty && !is_healthy then cost1 + W.health_penalty_size
    else cost1
  (cost2, [("cost_velocity", .scalar velocity_cost),
           ("cost_ctrl", .scalar ctrl_cost),
           ("penalty_health", .scalar health_penalty)])

/-- The info dictionary returned by `Walker2dCost.step`: the info produced
by the underlying `Walker2dEnv.step` (here abstract, `base`), updated first
with the cost-breakdown entries and then with the reference /
state-of-interest / reference-error entries; `dict.update` priority is
modelled by prepending the newer entries. -/
def stepInfo (W : WalkerParams) (base : InfoDict) (cost_info : InfoDict)
    (x_velocity : ℚ) : InfoDict :=
  [("reference", .scalar W.reference_forward_velocity),
   ("state_of_interest", .scalar x_velocity),
   ("reference_error", .scalar (x_velocity - W.reference_forward_velocity))]
    ++ cost_info ++ base

/-- The info dictionary returned by `Walker2dCost.reset` (the state of
interest and its velocity are taken as `0.0` there). -/
def resetInfo (W : WalkerParams) (base : InfoDict) (cost_info : InfoDict) :
    InfoDict :=
  [("reference", .scalar W.reference_forward_velocity),
   ("state_of_interest", .scalar 0),
   ("reference_error", .scalar (0 - W.reference_forward_velocity))]
    ++ cost_info ++ base

end Walker2dCost

/-- The constant-zero function, used as a concrete stand-in for the
abstract `sin`/`cos` parameters when evaluating at concrete inputs. -/
def zeroFn : ℚ → ℚ :=
  fun _ => 0

/-- All-zero sample points for the six per-step uniform draws. -/
def zeroDraws : Fin 6 → ℚ :=
  fun _ => 0

/-! ## Claims -/

/-- C1: for every step of the Oscillator and Ex3EKF environments, the
returned `terminated` flag is true iff the computed cost lies outside the
configured reward range `[low, high]` — exactly when `cost < low` or
`cost > high` — and the bounds default to `[0, 100]`. -/
theorem C1_terminated_iff_cost_outside_reward_range
    (sinF cosF : ℚ → ℚ) (P : OscParams) (Q : EkfParams) (env : OscEnv)
    (s : EkfState) (u1 u2 u3 v1 v2 w1 w2 wObs rFlag t : ℚ) (r : Fin 6 → ℚ) :
    ((Oscillator.step sinF P env u1 u2 u3 r).terminated = true ↔
      ((Oscillator.step sinF P env u1 u2 u3 r).cost < P.reward_low ∨
        P.reward_high < (Oscillator.step sinF P env u1 u2 u3 r).cost)) ∧
    ((Ex3EKF.step sinF cosF Q s v1 v2 w1 w2 wObs rFlag t).terminated = true ↔
      ((Ex3EKF.step sinF cosF Q s v1 v2 w1 w2 wObs rFlag t).cost < Q.reward_low ∨
        Q.reward_high < (Ex3EKF.step sinF cosF Q s v1 v2 w1 w2 wObs rFlag t).cost)) ∧
    defaultOscParams.reward_low = 0 ∧ defaultOscParams.reward_high = 100 ∧
    defaultEkfParams.reward_low = 0 ∧ defaultEkfParams.reward_high = 100 := by
  refine ⟨?_, ?_, by decide, by decide, by decide, by decide⟩ <;>
    simp [Oscillator.step, Ex3EKF.step, Bool.or_eq_true, decide_eq_true_eq]

/-- C2: for the Oscillator with zero noise, action `[0,0,0]`, `dt = 1` and
initial state `[0.8, 1.5, 0.5, 3.3, 3, 3]`, a single step produces exactly
the explicit-Euler update of the six coupled ODEs with the default
parameter values, each component clamped at zero — e.g. the new `m1` is
`max (m1 + (-gamma1*m1 + a1/(K1 + p3^2))*dt) 0` — for every value of the
(unused, zero-magnitude) noise sample points. -/
theorem C2_oscillator_single_step_euler_update (r : Fin 6 → ℚ) :
    Oscillator.stepDynamics defaultOscParams Oscillator.init_state 0 0 0 r =
      { m1 := max (4/5 + (-(4/25 * (4/5)) + (8/5) / (1 + (3 : ℚ) ^ 2)) * 1) 0
        m2 := max (3/2 + (-(4/25 * (3/2)) + (8/5) / (1 + (33/10 : ℚ) ^ 2)) * 1) 0
        m3 := max (1/2 + (-(4/25 * (1/2)) + (8/5) / (1 + (3 : ℚ) ^ 2)) * 1) 0
        p1 := max (33/10 + (-(3/50 * (33/10)) + 4/25 * (4/5)) * 1) 0
        p2 := max ((3 : ℚ) + (-(3/50 * 3) + 4/25 * (3/2)) * 1) 0
        p3 := max ((3 : ℚ) + (-(3/50 * 3) + 4/25 * (1/2)) * 1) 0 } := by
  simp only [Oscillator.stepDynamics, Oscillator.init_state, defaultOscParams,
    uniformDraw, OscState.mk.injEq]
  norm_num

/-- C5: after every Oscillator step — from any state, with any action and
any noise magnitudes `delta1..delta6` — every component of the resulting
state is nonnegative, because each is an element-wise maximum with zero. -/
theorem C5_oscillator_state_nonneg (P : OscParams) (s : OscState)
    (u1 u2 u3 : ℚ) (r : Fin 6 → ℚ) :
    0 ≤ (Oscillator.stepDynamics P s u1 u2 u3 r).m1 ∧
    0 ≤ (Oscillator.stepDynamics P s u1 u2 u3 r).m2 ∧
    0 ≤ (Oscillator.stepDynamics P s u1 u2 u3 r).m3 ∧
    0 ≤ (Oscillator.stepDynamics P s u1 u2 u3 r).p1 ∧
    0 ≤ (Oscillator.stepDynamics P s u1 u2 u3 r).p2 ∧
    0 ≤ (Oscillator.stepDynamics P s u1 u2 u3 r).p3 := by
  refine ⟨?_, ?_, ?_, ?_, ?_, ?_⟩ <;>
    simp only [Oscillator.stepDynamics] <;> exact le_max_right _ _

/-- A value clipped by `np.clip(x, lo, hi)` lies within `[lo, hi]`. -/
theorem clip_bounds (lo hi x : ℚ) (h : lo ≤ hi) :
    lo ≤ clip lo hi x ∧ clip lo hi x ≤ hi :=
  ⟨le_min (le_max_right _ _) h, min_le_right _ _⟩

/-- C4: under the default squared-error, non-negative-weight configuration,
the cost of every step of every environment is nonnegative: the Oscillator
cost `(p1 - r1)^2`, the Ex3EKF cost
`(hat_x_1 - x_1)^2 + (hat_x_2 - x_2)^2`, and the Walker2dCost cost
`w*(v - v_ref)^2` plus the nonnegative optional control-effort and
health-penalty terms. -/
theorem C4_cost_nonneg
    (sinF cosF : ℚ → ℚ) (P : OscParams) (Q : EkfParams) (W : WalkerParams)
    (env : OscEnv) (s : EkfState)
    (u1 u2 u3 v1 v2 w1 w2 wObs rFlag t xv cc : ℚ) (r : Fin 6 → ℚ)
    (healthy : Bool)
    (hw : 0 ≤ W.forward_velocity_weight) (hc : 0 ≤ cc)
    (hp : 0 ≤ W.health_penalty_size) :
    0 ≤ (Oscillator.step sinF P env u1 u2 u3 r).cost ∧
    0 ≤ (Ex3EKF.step sinF cosF Q s v1 v2 w1 w2 wObs rFlag t).cost ∧
    0 ≤ (Walker2dCost.cost W xv cc healthy).1 := by
  refine ⟨sq_nonneg _, add_nonneg (sq_nonneg _) (sq_nonneg _), ?_⟩
  have hv : 0 ≤ W.forward_velocity_weight *
      (xv - W.reference_forward_velocity) ^ 2 :=
    mul_nonneg hw (sq_nonneg _)
  simp only [Walker2dCost.cost]
  split_ifs <;> linarith

/-- Witness for C4 at the default parameters and concrete zero inputs. -/
theorem C4_cost_nonneg_witness :
    0 ≤ (Oscillator.step zeroFn defaultOscParams ⟨Oscillator.init_state, 0⟩
          0 0 0 zeroDraws).cost ∧
    0 ≤ (Ex3EKF.step zeroFn zeroFn defaultEkfParams ⟨0, 0, 0, 0⟩
          0 0 0 0 0 0 0).cost ∧
    0 ≤ (Walker2dCost.cost defaultWalkerParams 0 0 true).1 :=
  C4_cost_nonneg zeroFn zeroFn defaultOscParams defaultEkfParams
    defaultWalkerParams ⟨Oscillator.init_state, 0⟩ ⟨0, 0, 0, 0⟩
    0 0 0 0 0 0 0 0 0 0 0 0 zeroDraws true (by decide) (by decide) (by decide)

/-- C3: with `missing_rate = 0` the Bernoulli packet flag is always `1`
(every sample point of the numpy draw lies below `1`), and the estimator
angle update is the filter-corrected formula
`hat_x_1 + dt*hat_x_2 + dt*u1*(y_1 - hat_y_1)`; a dropped packet (sample
point at or above `1 - missing_rate`, flag `0`) instead yields the distinct
open-loop update `hat_x_1 + dt*hat_x_2` that omits the
measurement-correction term, and whenever that term is nonzero the two
branches produce different values — a two-branch conditional, not a
continuous blend. -/
theorem C3_ekf_flag_and_filter_update
    (sinF cosF : ℚ → ℚ) (P : EkfParams) (s : EkfState)
    (u1 u2 w1 w2 wObs rFlag rFlagDrop t : ℚ)
    (hmr : P.missing_rate = 0) (hrecv : rFlag < 1)
    (hdrop : 1 - P.missing_rate ≤ rFlagDrop)
    (hcorr : P.dt * u1 * ((sinF (s.x_1 + P.dt * s.x_2 + w1) + wObs) -
        sinF (s.hat_x_1 + P.dt * s.hat_x_2)) ≠ 0) :
    (Ex3EKF.step sinF cosF P s u1 u2 w1 w2 wObs rFlag t).flag = 1 ∧
    (Ex3EKF.step sinF cosF P s u1 u2 w1 w2 wObs rFlag t).state.hat_x_1 =
      s.hat_x_1 + P.dt * s.hat_x_2 +
        P.dt * u1 * ((sinF (s.x_1 + P.dt * s.x_2 + w1) + wObs) -
          sinF (s.hat_x_1 + P.dt * s.hat_x_2)) ∧
    (Ex3EKF.step sinF cosF P s u1 u2 w1 w2 wObs rFlagDrop t).state.hat_x_1 =
      s.hat_x_1 + P.dt * s.hat_x_2 ∧
    (Ex3EKF.step sinF cosF P s u1 u2 w1 w2 wObs rFlag t).state.hat_x_1 ≠
      (Ex3EKF.step sinF cosF P s u1 u2 w1 w2 wObs rFlagDrop t).state.hat_x_1 := by
  have hflag1 : bernoulliDraw (1 - P.missing_rate) rFlag = 1 := by
    simp [bernoulliDraw, hmr, hrecv]
  have hflag0 : bernoulliDraw (1 - P.missing_rate) rFlagDrop = 0 := by
    simp [bernoulliDraw, not_lt.mpr hdrop]
  refine ⟨?_, ?_, ?_, ?_⟩
  · simp [Ex3EKF.step, hflag1]
  · simp [Ex3EKF.step, hflag1]
  · simp [Ex3EKF.step, hflag0]
  · simp only [Ex3EKF.step, hflag1, hflag0]
    intro heq
    rw [if_pos trivial, if_neg (by decide)] at heq
    exact hcorr (by linarith [heq])

/-- Witness for C3: default parameters, estimator state zero, `u1 = 1`,
observation noise `1`, received sample point `0`, dropped sample point `1`. -/
theorem C3_ekf_flag_and_filter_update_witness :
    (Ex3EKF.step zeroFn zeroFn defaultEkfParams ⟨0, 0, 0, 0⟩
        1 0 0 0 1 0 0).flag = 1 ∧
    (Ex3EKF.step zeroFn zeroFn defaultEkfParams ⟨0, 0, 0, 0⟩
        1 0 0 0 1 0 0).state.hat_x_1 =
      (⟨0, 0, 0, 0⟩ : EkfState).hat_x_1 +
        defaultEkfParams.dt * (⟨0, 0, 0, 0⟩ : EkfState).hat_x_2 +
        defaultEkfParams.dt * 1 *
          ((zeroFn ((⟨0, 0, 0, 0⟩ : EkfState).x_1 +
              defaultEkfParams.dt * (⟨0, 0, 0, 0⟩ : EkfState).x_2 + 0) + 1) -
            zeroFn ((⟨0, 0, 0, 0⟩ : EkfState).hat_x_1 +
              defaultEkfParams.dt * (⟨0, 0, 0, 0⟩ : EkfState).hat_x_2)) ∧
    (Ex3EKF.step zeroFn zeroFn defaultEkfParams ⟨0, 0, 0, 0⟩
        1 0 0 0 1 1 0).state.hat_x_1 =
      (⟨0, 0, 0, 0⟩ : EkfState).hat_x_1 +
        defaultEkfParams.dt * (⟨0, 0, 0, 0⟩ : EkfState).hat_x_2 ∧
    (Ex3EKF.step zeroFn zeroFn defaultEkfParams ⟨0, 0, 0, 0⟩
        1 0 0 0 1 0 0).state.hat_x_1 ≠
      (Ex3EKF.step zeroFn zeroFn defaultEkfParams ⟨0, 0, 0, 0⟩
        1 0 0 0 1 1 0).state.hat_x_1 :=
  C3_ekf_flag_and_filter_update zeroFn zeroFn defaultEkfParams ⟨0, 0, 0, 0⟩
    1 0 0 0 1 0 1 0 (by decide) (by decide) (by norm_num [defaultEkfParams])
    (by norm_num [defaultEkfParams, zeroFn])

/-- C9: trajectories are a pure function of the seed-determined sample
points and the action sequence — two runs fed identical draws and identical
actions coincide step by step, as do two seeded resets fed identical draws —
and with all noise magnitudes zero the integrator's next state does not
depend on the sample points at all: it is a pure function of
(state, action, dt). -/
theorem C9_seeded_determinism :
    (∀ (sinF : ℚ → ℚ) (P : OscParams) (env1 env2 : OscEnv)
        (acts1 acts2 : List (ℚ × ℚ × ℚ)) (ns1 ns2 : List (Fin 6 → ℚ)),
      env1 = env2 → acts1 = acts2 → ns1 = ns2 →
      Oscillator.trajectory sinF P env1 acts1 ns1 =
        Oscillator.trajectory sinF P env2 acts2 ns2) ∧
    (∀ (sinF : ℚ → ℚ) (P : OscParams) (env : OscEnv)
        (optLow optHigh : Option (List ℚ)) (d1 d2 : Fin 6 → ℚ) (random : Bool),
      d1 = d2 →
      Oscillator.reset sinF P env optLow optHigh d1 random =
        Oscillator.reset sinF P env optLow optHigh d2 random) ∧
    (∀ (P : OscParams) (s : OscState) (u1 u2 u3 : ℚ) (r rAlt : Fin 6 → ℚ),
      P.delta1 = 0 → P.delta2 = 0 → P.delta3 = 0 → P.delta4 = 0 →
      P.delta5 = 0 → P.delta6 = 0 →
      Oscillator.stepDynamics P s u1 u2 u3 r =
        Oscillator.stepDynamics P s u1 u2 u3 rAlt) := by
  refine ⟨?_, ?_, ?_⟩
  · rintro sinF P env _ acts _ ns _ rfl rfl rfl; rfl
  · rintro sinF P env oL oH d _ random rfl; rfl
  · intro P s u1 u2 u3 r rAlt h1 h2 h3 h4 h5 h6
    simp [Oscillator.stepDynamics, uniformDraw, h1, h2, h3, h4, h5, h6]

/-- Witness for C9: a one-step replay, a seeded reset, and the zero-noise
default parameters with two different sample-point tuples. -/
theorem C9_seeded_determinism_witness :
    Oscillator.trajectory zeroFn defaultOscParams ⟨Oscillator.init_state, 0⟩
        [(0, 0, 0)] [zeroDraws] =
      Oscillator.trajectory zeroFn defaultOscParams ⟨Oscillator.init_state, 0⟩
        [(0, 0, 0)] [zeroDraws] ∧
    Oscillator.reset zeroFn defaultOscParams ⟨Oscillator.init_state, 0⟩
        none none zeroDraws true =
      Oscillator.reset zeroFn defaultOscParams ⟨Oscillator.init_state, 0⟩
        none none zeroDraws true ∧
    Oscillator.stepDynamics defaultOscParams Oscillator.init_state 0 0 0
        zeroDraws =
      Oscillator.stepDynamics defaultOscParams Oscillator.init_state 0 0 0
        (fun _ => 1) :=
  ⟨C9_seeded_determinism.1 zeroFn defaultOscParams _ _ _ _ _ _ rfl rfl rfl,
   C9_seeded_determinism.2.1 zeroFn defaultOscParams _ none none _ _ true rfl,
   C9_seeded_determinism.2.2 defaultOscParams Oscillator.init_state 0 0 0
     zeroDraws (fun _ => 1) (by decide) (by decide) (by decide) (by decide)
     (by decide) (by decide)⟩

/-- C6 counterexample: at a concrete input the info dictionary returned by
`Ex3EKF.step` carries no "reference_error" entry, refuting the claim that
every environment's step info always contains the signed reference error. -/
theorem C6_counterexample_ekf_step_info_lacks_reference_error :
    InfoDict.hasKey
      (Ex3EKF.step zeroFn zeroFn defaultEkfParams ⟨0, 0, 0, 0⟩
        0 0 0 0 0 0 0).info "reference_error" = false := by
  decide

/-- C6 amended: the info dictionaries of `Oscillator` (step and reset) and
`Walker2dCost` (step and reset) always contain the reference value, the
state of interest and the signed reference error; the `Ex3EKF` info (step
and reset) contains the reference value and the state of interest but omits
the reference error. -/
theorem C6_info_keys_amended
    (sinF cosF : ℚ → ℚ) (P : OscParams) (Q : EkfParams) (W : WalkerParams)
    (env : OscEnv) (s : EkfState)
    (u1 u2 u3 v1 v2 w1 w2 wObs rFlag t xv : ℚ) (r draws : Fin 6 → ℚ)
    (optLow optHigh : Option (List ℚ)) (random : Bool)
    (base cost_info : InfoDict) :
    ((Oscillator.step sinF P env u1 u2 u3 r).info.hasKey "reference" = true ∧
      (Oscillator.step sinF P env u1 u2 u3 r).info.hasKey "state_of_interest" =
        true ∧
      (Oscillator.step sinF P env u1 u2 u3 r).info.hasKey "reference_error" =
        true) ∧
    (match (Oscillator.reset sinF P env optLow optHigh draws random).1 with
      | some x =>
          x.2.hasKey "reference" = true ∧
            x.2.hasKey "state_of_interest" = true ∧
            x.2.hasKey "reference_error" = true
      | none => True) ∧
    ((Ex3EKF.step sinF cosF Q s v1 v2 w1 w2 wObs rFlag t).info.hasKey
        "reference" = true ∧
      (Ex3EKF.step sinF cosF Q s v1 v2 w1 w2 wObs rFlag t).info.hasKey
        "state_of_interest" = true ∧
      (Ex3EKF.step sinF cosF Q s v1 v2 w1 w2 wObs rFlag t).info.hasKey
        "reference_error" = false) ∧
    ((Ex3EKF.resetInfo sinF s wObs).hasKey "reference" = true ∧
      (Ex3EKF.resetInfo sinF s wObs).hasKey "state_of_interest" = true ∧
      (Ex3EKF.resetInfo sinF s wObs).hasKey "reference_error" = false) ∧
    ((Walker2dCost.stepInfo W base cost_info xv).hasKey "reference" = true ∧
      (Walker2dCost.stepInfo W base cost_info xv).hasKey "state_of_interest" =
        true ∧
      (Walker2dCost.stepInfo W base cost_info xv).hasKey "reference_error" =
        true) ∧
    ((Walker2dCost.resetInfo W base cost_info).hasKey "reference" = true ∧
      (Walker2dCost.resetInfo W base cost_info).hasKey "state_of_interest" =
        true ∧
      (Walker2dCost.resetInfo W base cost_info).hasKey "reference_error" =
        true) := by
  refine ⟨?_, ?_, ?_, ?_, ?_, ?_⟩
  · exact ⟨rfl, rfl, rfl⟩
  · cases hb : (boxContains (Oscillator.obs_low P) (Oscillator.obs_high P)
        (Oscillator.padToObs P (optLow.getD Oscillator.init_state_range_low)) &&
      boxContains (Oscillator.obs_low P) (Oscillator.obs_high P)
        (Oscillator.padToObs P (optHigh.getD Oscillator.init_state_range_high)))
    · simp [Oscillator.reset, hb]
    · simp only [Oscillator.reset, hb, if_true]
      exact ⟨rfl, rfl, rfl⟩
  · exact ⟨rfl, rfl, rfl⟩
  · exact ⟨rfl, rfl, rfl⟩
  · exact ⟨rfl, rfl, rfl⟩
  · exact ⟨rfl, rfl, rfl⟩

/-- C7 counterexample: with clipping disabled, a concrete out-of-bounds
action given to `Ex3EKF.step`'s action-resolution prologue is passed
through unchanged — no assertion fires and no clipping happens — refuting
the claim that disabling clipping makes out-of-bounds actions fail for both
environments. -/
theorem C7_counterexample_ekf_unclipped_oob_passthrough :
    Ex3EKF.resolveAction false false (20, 0) = some ((20, 0), false, false) ∧
    Ex3EKF.actionContains (20, 0) = false := by
  decide

/-- C7 amended: for the Oscillator the claim holds as stated — with
clipping disabled an out-of-bounds action fails the assertion and an
in-bounds action passes through, and with clipping enabled the action is
clipped into the action space, a warning being logged exactly when the
action is out of bounds and no warning was logged before.  For Ex3EKF, with
clipping enabled the action is likewise clipped into the action space, but
the one-time suppression of the warning only covers actions above the upper
bound (an action below the lower bound logs a warning on every call), and
with clipping disabled every action — also an out-of-bounds one — is
passed through silently, with no assertion. -/
theorem C7_action_handling_amended :
    (∀ (w : Bool) (a : ℚ × ℚ × ℚ), Oscillator.actionContains a = false →
      Oscillator.resolveAction false w a = none) ∧
    (∀ (w : Bool) (a : ℚ × ℚ × ℚ), Oscillator.actionContains a = true →
      Oscillator.resolveAction false w a = some (a, w, false)) ∧
    (∀ (w : Bool) (a : ℚ × ℚ × ℚ), ∃ b,
      Oscillator.resolveAction true w a =
        some (b, w || (!Oscillator.actionContains a && !w),
          !Oscillator.actionContains a && !w) ∧
      Oscillator.actionContains b = true) ∧
    (∀ (w : Bool) (a : ℚ × ℚ), ∃ b,
      Ex3EKF.resolveAction true w a =
        some (b,
          w || ((decide (a.1 < Ex3EKF.action_low) ||
              decide (a.2 < Ex3EKF.action_low)) ||
            ((decide (Ex3EKF.action_high < a.1) ||
              decide (Ex3EKF.action_high < a.2)) && !w)),
          (decide (a.1 < Ex3EKF.action_low) ||
              decide (a.2 < Ex3EKF.action_low)) ||
            ((decide (Ex3EKF.action_high < a.1) ||
              decide (Ex3EKF.action_high < a.2)) && !w)) ∧
      Ex3EKF.actionContains b = true) ∧
    (∀ (w : Bool) (a : ℚ × ℚ),
      Ex3EKF.resolveAction false w a = some (a, w, false)) := by
  have hosc : Oscillator.action_low ≤ Oscillator.action_high := by decide
  have hekf : Ex3EKF.action_low ≤ Ex3EKF.action_high := by decide
  refine ⟨?_, ?_, ?_, ?_, ?_⟩
  · intro w a h
    simp [Oscillator.resolveAction, h]
  · intro w a h
    simp [Oscillator.resolveAction, h]
  · intro w a
    refine ⟨_, rfl, ?_⟩
    obtain ⟨hb1, hb2⟩ := clip_bounds Oscillator.action_low
      Oscillator.action_high a.1 hosc
    obtain ⟨hb3, hb4⟩ := clip_bounds Oscillator.action_low
      Oscillator.action_high a.2.1 hosc
    obtain ⟨hb5, hb6⟩ := clip_bounds Oscillator.action_low
      Oscillator.action_high a.2.2 hosc
    simp [Oscillator.actionContains, hb1, hb2, hb3, hb4, hb5, hb6]
  · intro w a
    refine ⟨_, rfl, ?_⟩
    obtain ⟨hb1, hb2⟩ := clip_bounds Ex3EKF.action_low Ex3EKF.action_high
      a.1 hekf
    obtain ⟨hb3, hb4⟩ := clip_bounds Ex3EKF.action_low Ex3EKF.action_high
      a.2 hekf
    simp [Ex3EKF.actionContains, hb1, hb2, hb3, hb4]
  · intro w a
    rfl

/-- Witness for C7 amended: concrete in- and out-of-bounds actions through
every branch of both environments' action handling. -/
theorem C7_action_handling_amended_witness :
    Oscillator.resolveAction false false (6, 0, 0) = none ∧
    Oscillator.resolveAction false false (0, 0, 0) =
      some ((0, 0, 0), false, false) ∧
    (∃ b, Oscillator.resolveAction true false (6, 0, 0) =
        some (b, false || (!Oscillator.actionContains (6, 0, 0) && !false),
          !Oscillator.actionContains (6, 0, 0) && !false) ∧
      Oscillator.actionContains b = true) ∧
    (∃ b, Ex3EKF.resolveAction true false (-20, 0) =
        some (b,
          false || ((decide ((-20 : ℚ) < Ex3EKF.action_low) ||
              decide ((0 : ℚ) < Ex3EKF.action_low)) ||
            ((decide (Ex3EKF.action_high < (-20 : ℚ)) ||
              decide (Ex3EKF.action_high < (0 : ℚ))) && !false)),
          (decide ((-20 : ℚ) < Ex3EKF.action_low) ||
              decide ((0 : ℚ) < Ex3EKF.action_low)) ||
            ((decide (Ex3EKF.action_high < (-20 : ℚ)) ||
              decide (Ex3EKF.action_high < (0 : ℚ))) && !false)) ∧
      Ex3EKF.actionContains b = true) ∧
    Ex3EKF.resolveAction false false (20, 0) = some ((20, 0), false, false) :=
  ⟨C7_action_handling_amended.1 false (6, 0, 0) (by decide),
   C7_action_handling_amended.2.1 false (0, 0, 0) (by decide),
   C7_action_handling_amended.2.2.1 false (6, 0, 0),
   C7_action_handling_amended.2.2.2.1 false (-20, 0),
   C7_action_handling_amended.2.2.2.2 false (20, 0)⟩

/-- C8: an `Oscillator.reset` call whose options carry initial-state bounds
that fail the observation-space containment check fails the assertion
before any state mutation: the result is the assertion failure and the
stored state vector and elapsed time are returned unchanged. -/
theorem C8_reset_invalid_bounds_assert
    (sinF : ℚ → ℚ) (P : OscParams) (env : OscEnv)
    (optLow optHigh : Option (List ℚ)) (draws : Fin 6 → ℚ) (random : Bool)
    (hinv : (boxContains (Oscillator.obs_low P) (Oscillator.obs_high P)
        (Oscillator.padToObs P (optLow.getD Oscillator.init_state_range_low)) &&
      boxContains (Oscillator.obs_low P) (Oscillator.obs_high P)
        (Oscillator.padToObs P
          (optHigh.getD Oscillator.init_state_range_high))) = false) :
    (Oscillator.reset sinF P env optLow optHigh draws random).1 = none ∧
    (Oscillator.reset sinF P env optLow optHigh draws random).2 = env := by
  simp [Oscillator.reset, hinv]

/-- Witness for C8: default parameters, a lower reset bound `-1` below the
observation space, and a nonzero stored time `3` that survives the call. -/
theorem C8_reset_invalid_bounds_assert_witness :
    (Oscillator.reset zeroFn defaultOscParams ⟨Oscillator.init_state, 3⟩
        (some [-1, 0, 0, 0, 0, 0]) none zeroDraws true).1 = none ∧
    (Oscillator.reset zeroFn defaultOscParams ⟨Oscillator.init_state, 3⟩
        (some [-1, 0, 0, 0, 0, 0]) none zeroDraws true).2 =
      ⟨Oscillator.init_state, 3⟩ :=
  C8_reset_invalid_bounds_assert zeroFn defaultOscParams
    ⟨Oscillator.init_state, 3⟩ (some [-1, 0, 0, 0, 0, 0]) none zeroDraws true
    (by decide)

/-- C10: the `truncated` flag returned by `Oscillator.step` and
`Ex3EKF.step` is `False` for every state and every action: truncation never
originates inside these environments. -/
theorem C10_truncated_always_false
    (sinF cosF : ℚ → ℚ) (P : OscParams) (Q : EkfParams) (env : OscEnv)
    (s : EkfState) (u1 u2 u3 v1 v2 w1 w2 wObs rFlag t : ℚ) (r : Fin 6 → ℚ) :
    (Oscillator.step sinF P env u1 u2 u3 r).truncated = false ∧
    (Ex3EKF.step sinF cosF Q s v1 v2 w1 w2 wObs rFlag t).truncated = false :=
  ⟨rfl, rfl⟩

end StableGym
